import Mathlib

/-!
Shallow embedding of the client-side HTTP request wrapper in
src/src/core/request/index.ts and src/src/core/request/token.ts.

The wrapper attaches a bearer credential from a persistent token store,
substitutes colon-prefixed path variables into the URL template, dispatches
the transport call, and on a 401 failure runs a refresh-and-retry protocol.

Modelling conventions:
- JavaScript timestamps (Date.now(), accessExpiredAt, refreshExpiredAt) are Nat.
- The token store (localStorage key "token") is an `Option Token` field of the
  explicit state `St`.  `getToken` in token.ts returns the parsed record when
  the key exists and the empty object `\x7b\x7d` otherwise; the empty object is
  truthy in JavaScript and its `.access` field is `undefined`, which the
  template literal renders as the string "undefined".  We model the absent
  record as `none` and reproduce those JavaScript behaviours explicitly
  (`accessField`, and the truthiness of the `if (token && !ignoreAuth)` guard).
- The external collaborators (axios transport, refreshToken, notifier) are
  parameters of `Env`; the notifier is modelled by appending the shown message
  to a log in `St`.  Dispatched transport calls and refresh invocations are
  likewise logged so that claims about "exactly one dispatch" or "the
  collaborator is never invoked" are statable.  The remaining axios config
  (method, body, query params) is passed through unchanged by the source and
  does not influence the modelled control flow, so it is not represented.
- The `request` function of index.ts retries itself recursively after a
  successful refresh; we index the recursion by fuel.  `none` means the fuel
  bound was reached, i.e. the recursion did not terminate within that bound.
-/

namespace ReactRequest

/-- Token record persisted by token.ts: access and refresh credentials with
their expiry timestamps (global type InternalToken.Token). -/
structure Token where
  access : String
  refresh : String
  accessExpiredAt : Nat
  refreshExpiredAt : Nat
deriving DecidableEq, Repr

/-- index.ts lines 87-91: a token is expired when now exceeds the access
expiry or the refresh expiry.  Date.now() is passed as `now`. -/
def isTokenExpired (now : Nat) (t : Token) : Bool :=
  now > t.accessExpiredAt || now > t.refreshExpiredAt

/-- index.ts lines 93-97: the refresh token is expired when now exceeds the
refresh expiry. -/
def isRefreshTokenExpired (now : Nat) (t : Token) : Bool :=
  now > t.refreshExpiredAt

/-! ## Path variable substitution (index.ts lines 71-85) -/

/-- Character class of the regex `[a-zA-Z0-9_]` used in the placeholder
pattern. -/
def isWordChar (c : Char) : Bool :=
  c.isAlpha || c.isDigit || c = '_'

/-- One pass of JavaScript `String.replace` with the global regex
`:([a-zA-Z0-9_]+)` and a fixed replacement string: scan left to right, and at
each position where a colon is followed by at least one word character,
emit the replacement and continue after the matched word; otherwise copy the
character.  The fuel is the length of the scanned list; every step consumes at
least one character, so the fuel never runs out on the initial call.
(The replacement strings in this code base contain no dollar patterns, so
the replacement is inserted literally.) -/
def replaceColonVarsAux (rep : List Char) : Nat → List Char → List Char
  | 0, l => l
  | _ + 1, [] => []
  | fuel + 1, c :: rest =>
    if c = ':' ∧ rest.takeWhile isWordChar ≠ [] then
      rep ++ replaceColonVarsAux rep fuel (rest.drop (rest.takeWhile isWordChar).length)
    else
      c :: replaceColonVarsAux rep fuel rest

/-- JavaScript `url.replace(/:([a-zA-Z0-9_]+)/g, rep)`. -/
def jsReplaceColonGlobal (url : String) (rep : String) : String :=
  ⟨replaceColonVarsAux rep.data url.data.length url.data⟩

/-- index.ts lines 71-85, `replacePathVariables`.  The path-variable map is
the insertion-ordered list of own enumerable key/value pairs (the order
`for..in` visits string keys; `hasOwnProperty` holds for all of them, and
values are already stringified).  Note the loop body of the source reads
`requestUrl = url.replace(/:([a-zA-Z0-9_]+)/g, String(pathVariables[key]))`:
it replaces in the ORIGINAL url, with a global pattern matching every
placeholder, using only the current iteration's value — the accumulator is
overwritten each round, so the result is the original url with every
placeholder replaced by the LAST entry's value (or the url itself when the
map is empty). -/
def replacePathVariables (url : String) (pathVariables : List (String × String)) : String :=
  pathVariables.foldl (fun _requestUrl kv => jsReplaceColonGlobal url kv.2) url

/-! ## Request orchestrator (index.ts lines 98-209) -/

/-- Shape of the error value observed by the catch block: presence and status
of `error.response`, the server message `error.response.data.message`, and
the `code` and `message` fields.  `none` models an absent (undefined) field;
in particular `responseStatus = none` models an error with no `response`. -/
structure JsError where
  responseStatus : Option Nat
  responseDataMessage : Option String
  code : Option Int
  message : Option String
deriving DecidableEq, Repr

/-- Result of the axios transport call: resolved with a status and a
Response-shaped body (its `data` and `errorMessage` fields), or rejected
with an error. -/
inductive AxiosResult (α : Type) where
  | resolved (status : Nat) (data : Option α) (errorMessage : Option String)
  | rejected (e : JsError)
deriving DecidableEq

/-- Result of the refresh collaborator `refreshToken(\x7brefreshToken\x7d)`:
resolves to `\x7bsuccess, data\x7d` or rejects. -/
inductive RefreshResult where
  | resolved (success : Bool) (data : Token)
  | rejected (e : JsError)
deriving DecidableEq

/-- The part of a dispatched transport call that the wrapper computes: the
resolved URL and the Authorization header (if attached).  The rest of the
axios config is forwarded verbatim by the source. -/
structure Dispatched where
  url : String
  authorization : Option String
deriving DecidableEq, Repr

/-- External collaborators and the clock.  The collaborators are modelled as
functions of their inputs. -/
structure Env (α : Type) where
  now : Nat
  transport : Dispatched → AxiosResult α
  refresh : String → RefreshResult

/-- Caller-supplied request descriptor: URL template, optional path-variable
map, and the three policy flags (optional booleans default to false, as
undefined is falsy). -/
structure Args where
  url : String
  pathVariables : Option (List (String × String))
  ignoreAuth : Bool
  silentError : Bool
  throwErr : Bool
deriving DecidableEq

/-- Observable state threaded through one `request` call: the token store and
logs of the notifier messages shown, of the transport calls dispatched, and
of the refresh-collaborator invocations (their refreshToken arguments). -/
structure St where
  store : Option Token
  notices : List String
  dispatches : List Dispatched
  refreshCalls : List String
deriving DecidableEq

/-- Values a rejected `request` promise can carry: the original transport
error rethrown (line 200), a freshly constructed Error (line 157), or the
refresh collaborator's rejection value rethrown (line 181). -/
inductive Thrown where
  | js (e : JsError)
  | newError (msg : String)
  | refreshErr (e : JsError)
deriving DecidableEq

/-- The tagged Response envelope of index.ts lines 7-19: success carries the
body's data field; failure carries errorCode and errorMessage (either may be
undefined on the generic path). -/
inductive Response (α : Type) where
  | ok (data : Option α)
  | fail (errorCode : Option Int) (errorMessage : Option String)
deriving DecidableEq

/-- Terminal result of one `request` call: the promise resolves with an
envelope or rejects with a thrown value. -/
inductive Outcome (α : Type) where
  | resolved (r : Response α)
  | thrown (t : Thrown)
deriving DecidableEq

/-- JavaScript `s || d` for a possibly undefined string s: the fallback is
used when s is undefined or empty (both falsy). -/
def jsOr (s : Option String) (d : String) : String :=
  match s with
  | some v => if v = "" then d else v
  | none => d

/-- token.ts lines 2-5, `getToken`: the stored record, or (in JavaScript) the
empty object when the key is absent — modelled as the store field itself. -/
def getToken (st : St) : Option Token := st.store

/-- token.ts lines 8-10, `setToken`: overwrite the stored record. -/
def setToken (t : Token) (st : St) : St := { st with store := some t }

/-- token.ts lines 13-15, `deleteToken`: remove the stored record. -/
def deleteToken (st : St) : St := { st with store := none }

/-- The string interpolated into the template literal on index.ts line 120:
`token.access`, which is the access field when a record is stored and the
undefined-rendering "undefined" when getToken returned the empty object. -/
def accessField (stored : Option Token) : String :=
  match stored with
  | some t => t.access
  | none => "undefined"

/-- index.ts lines 116-122: the guard is `if (token && !ignoreAuth)`, and
`getToken()` is always truthy (a parsed record or the empty object), so the
Authorization header is attached exactly when ignoreAuth is not set. -/
def authHeader (ignoreAuth : Bool) (stored : Option Token) : Option String :=
  if ignoreAuth then none else some ("Bearer " ++ accessField stored)

/-- index.ts lines 124-127: substitute path variables when a map was supplied
(any supplied object, even empty, is truthy). -/
def resolveUrl (args : Args) : String :=
  match args.pathVariables with
  | some pv => replacePathVariables args.url pv
  | none => args.url

/-- The transport call config computed by the wrapper for the current store
state. -/
def dispatchConfig (args : Args) (st : St) : Dispatched :=
  ⟨resolveUrl args, authHeader args.ignoreAuth (getToken st)⟩

/-- Invocation of defaultErrorHandler.showError, gated by silentError. -/
def notify (silentError : Bool) (msg : String) (st : St) : St :=
  if silentError then st else { st with notices := st.notices ++ [msg] }

/-- index.ts lines 192-207: generic failure reporting.  Unless silentError,
show `error?.response?.data?.message || '请求失败'`; if throwError, rethrow
the error; otherwise resolve with a failure envelope carrying
`error?.code` and `error?.message`. -/
def genericReport {α : Type} (args : Args) (e : JsError) (st : St) : Option (St × Outcome α) :=
  let st1 := notify args.silentError (jsOr e.responseDataMessage "请求失败") st
  if args.throwErr then some (st1, Outcome.thrown (Thrown.js e))
  else some (st1, Outcome.resolved (Response.fail e.code e.message))

/-- index.ts lines 144-207: the catch block.  `retry` is the recursive
re-invocation of `request` performed on line 172.  The 401 branch is guarded
by `error.response && error.response.status === 401 && !ignoreAuth`; inside
it, `getToken()` is re-read — the empty object (modelled `none`) makes
`isTokenExpired` compare now against undefined, which is false, so only a
present record can enter the refresh logic. -/
def handleError {α : Type} (env : Env α) (retry : Args → St → Option (St × Outcome α))
    (args : Args) (e : JsError) (st : St) : Option (St × Outcome α) :=
  if e.responseStatus = some 401 ∧ args.ignoreAuth = false then
    match getToken st with
    | some currentToken =>
      if isTokenExpired env.now currentToken then
        if isRefreshTokenExpired env.now currentToken then
          -- lines 149-163: delete the token, notify, then throw or return the
          -- fixed refresh-token-expired failure
          let st1 := notify args.silentError "刷新令牌已过期，请重新登录" (deleteToken st)
          if args.throwErr then some (st1, Outcome.thrown (Thrown.newError "刷新令牌已过期"))
          else some (st1, Outcome.resolved (Response.fail (some 401) (some "刷新令牌已过期")))
        else
          -- lines 164-189: invoke the refresh collaborator
          let st1 := { st with refreshCalls := st.refreshCalls ++ [currentToken.refresh] }
          match env.refresh currentToken.refresh with
          | RefreshResult.resolved success data =>
            if success then
              -- lines 169-172: persist the new record and re-invoke request;
              -- (the resolved value is a truthy object, so the guard
              -- `newToken && newToken.success` reduces to `success`)
              retry args (setToken data st1)
            else
              -- success false: the inner if falls through and control reaches
              -- the generic reporting of the ORIGINAL error (line 192)
              genericReport args e st1
          | RefreshResult.rejected refreshError =>
            -- lines 174-187: delete the token, notify, then rethrow the
            -- refresh error or return the fixed refresh-failed failure
            let st2 := notify args.silentError "刷新令牌失败，请重新登录" (deleteToken st1)
            if args.throwErr then some (st2, Outcome.thrown (Thrown.refreshErr refreshError))
            else some (st2, Outcome.resolved (Response.fail (some 401) (some "刷新令牌失败")))
      else genericReport args e st
    | none => genericReport args e st
  else genericReport args e st

/-- index.ts lines 98-209, one unfolding of `request`: attach the credential,
resolve the URL, dispatch; on status 200 resolve with the success envelope
carrying the body's data; on any other status throw
`new Error(response.data.errorMessage || '请求失败')` (an error with no
response field), caught by the same catch block; on rejection run the catch
block on the transport error. -/
def requestBody {α : Type} (env : Env α) (retry : Args → St → Option (St × Outcome α))
    (args : Args) (st : St) : Option (St × Outcome α) :=
  let d := dispatchConfig args st
  let st1 := { st with dispatches := st.dispatches ++ [d] }
  match env.transport d with
  | AxiosResult.resolved status data errorMessage =>
    if status = 200 then some (st1, Outcome.resolved (Response.ok data))
    else handleError env retry args ⟨none, none, none, some (jsOr errorMessage "请求失败")⟩ st1
  | AxiosResult.rejected e => handleError env retry args e st1

/-- The recursive `request` function, indexed by fuel: `none` means the
recursion (retry after successful refresh, line 172) exceeded the fuel. -/
def requestFuel {α : Type} (env : Env α) : Nat → Args → St → Option (St × Outcome α)
  | 0, _, _ => none
  | fuel + 1, args, st => requestBody env (requestFuel env fuel) args st

end ReactRequest

namespace ReactRequest

theorem genericReport_isSome {α : Type} (args : Args) (e : JsError) (st : St) :
    (genericReport (α := α) args e st).isSome := by
  unfold genericReport
  split <;> rfl

theorem genericReport_store {α : Type} (args : Args) (e : JsError) (st st' : St)
    (out : Outcome α) (h : genericReport args e st = some (st', out)) :
    st'.store = st.store ∧ st'.dispatches = st.dispatches ∧ st'.refreshCalls = st.refreshCalls := by
  unfold genericReport notify at h
  split at h <;> split at h <;>
    simp only [Option.some_inj, Prod.mk.injEq] at h <;>
    obtain ⟨h1, h2⟩ := h <;> subst h1 <;> simp

theorem handleError_ignoreAuth {α : Type} (env : Env α)
    (retry : Args → St → Option (St × Outcome α)) (args : Args) (e : JsError) (st : St)
    (h : args.ignoreAuth = true) :
    handleError env retry args e st = genericReport args e st := by
  unfold handleError
  simp [h]

theorem handleError_fresh {α : Type} (env : Env α)
    (retry : Args → St → Option (St × Outcome α)) (args : Args) (e : JsError) (st : St)
    (t : Token) (hst : getToken st = some t) (hfresh : isTokenExpired env.now t = false) :
    handleError env retry args e st = genericReport args e st := by
  unfold handleError
  split
  · rw [hst]
    simp [hfresh]
  · rfl

theorem handleError_congr {α : Type} (env : Env α)
    (retry₁ retry₂ : Args → St → Option (St × Outcome α)) (args : Args) (e : JsError) (st : St)
    (h : ∀ s d, getToken s = some d → (∃ r, env.refresh r = RefreshResult.resolved true d) →
      retry₁ args s = retry₂ args s) :
    handleError env retry₁ args e st = handleError env retry₂ args e st := by
  unfold handleError
  split
  · split
    · split
      · split
        · rfl
        · split
          next success data href =>
            split
            next hsucc =>
              apply h
              · rfl
              · exact ⟨_, by rw [href, hsucc]⟩
            next => rfl
          next => rfl
      · rfl
    · rfl
  · rfl

theorem handleError_isSome {α : Type} (env : Env α)
    (retry : Args → St → Option (St × Outcome α)) (args : Args) (e : JsError) (st : St)
    (h : ∀ s d, getToken s = some d → (∃ r, env.refresh r = RefreshResult.resolved true d) →
      (retry args s).isSome) :
    (handleError env retry args e st).isSome := by
  unfold handleError
  split
  · split
    · split
      · split
        · split <;> rfl
        · split
          next success data href =>
            split
            next hsucc =>
              apply h
              · rfl
              · exact ⟨_, by rw [href, hsucc]⟩
            next => exact genericReport_isSome ..
          next => split <;> rfl
      · exact genericReport_isSome ..
    · exact genericReport_isSome ..
  · exact genericReport_isSome ..

end ReactRequest

namespace ReactRequest

theorem requestBody_congr {α : Type} (env : Env α)
    (retry₁ retry₂ : Args → St → Option (St × Outcome α)) (args : Args) (st : St)
    (h : ∀ s d, getToken s = some d → (∃ r, env.refresh r = RefreshResult.resolved true d) →
      retry₁ args s = retry₂ args s) :
    requestBody env retry₁ args st = requestBody env retry₂ args st := by
  unfold requestBody
  dsimp only
  cases env.transport (dispatchConfig args st) <;> dsimp only
  · split
    · rfl
    · exact handleError_congr env retry₁ retry₂ args _ _ h
  · exact handleError_congr env retry₁ retry₂ args _ _ h

theorem requestBody_isSome {α : Type} (env : Env α)
    (retry : Args → St → Option (St × Outcome α)) (args : Args) (st : St)
    (h : ∀ s d, getToken s = some d → (∃ r, env.refresh r = RefreshResult.resolved true d) →
      (retry args s).isSome) :
    (requestBody env retry args st).isSome := by
  unfold requestBody
  dsimp only
  cases env.transport (dispatchConfig args st) <;> dsimp only
  · split
    · rfl
    · exact handleError_isSome env retry args _ _ h
  · exact handleError_isSome env retry args _ _ h

theorem requestBody_fresh {α : Type} (env : Env α)
    (retry₁ retry₂ : Args → St → Option (St × Outcome α)) (args : Args) (st : St)
    (t : Token) (hst : getToken st = some t) (hfresh : isTokenExpired env.now t = false) :
    requestBody env retry₁ args st = requestBody env retry₂ args st := by
  unfold requestBody
  dsimp only
  cases env.transport (dispatchConfig args st) <;> dsimp only
  · split
    · rfl
    · rw [handleError_fresh env retry₁ args _ _ t (by simpa [getToken] using hst) hfresh,
        handleError_fresh env retry₂ args _ _ t (by simpa [getToken] using hst) hfresh]
  · rw [handleError_fresh env retry₁ args _ _ t (by simpa [getToken] using hst) hfresh,
      handleError_fresh env retry₂ args _ _ t (by simpa [getToken] using hst) hfresh]

theorem requestBody_fresh_isSome {α : Type} (env : Env α)
    (retry : Args → St → Option (St × Outcome α)) (args : Args) (st : St)
    (t : Token) (hst : getToken st = some t) (hfresh : isTokenExpired env.now t = false) :
    (requestBody env retry args st).isSome := by
  unfold requestBody
  dsimp only
  cases env.transport (dispatchConfig args st) <;> dsimp only
  · split
    · rfl
    · rw [handleError_fresh env retry args _ _ t (by simpa [getToken] using hst) hfresh]
      exact genericReport_isSome ..
  · rw [handleError_fresh env retry args _ _ t (by simpa [getToken] using hst) hfresh]
    exact genericReport_isSome ..

theorem requestFuel_succ {α : Type} (env : Env α) (fuel : Nat) (args : Args) (st : St) :
    requestFuel env (fuel + 1) args st = requestBody env (requestFuel env fuel) args st := rfl

theorem requestFuel_fresh {α : Type} (env : Env α) (fuel₁ fuel₂ : Nat) (args : Args) (st : St)
    (t : Token) (hst : getToken st = some t) (hfresh : isTokenExpired env.now t = false) :
    requestFuel env (fuel₁ + 1) args st = requestFuel env (fuel₂ + 1) args st :=
  requestBody_fresh env (requestFuel env fuel₁) (requestFuel env fuel₂) args st t hst hfresh


/-- C9: whenever the transport call resolves with HTTP status 200, the request
resolves with the success envelope whose data field is exactly the body's data
field; the state shows no notifier invocation and no token-store change (only
the dispatch is logged). -/
theorem c9_status200_success {α : Type} (env : Env α) (args : Args) (st : St) (fuel : Nat)
    (data : Option α) (em : Option String)
    (h200 : env.transport (dispatchConfig args st) = AxiosResult.resolved 200 data em) :
    requestFuel env (fuel + 1) args st =
      some ({ st with dispatches := st.dispatches ++ [dispatchConfig args st] },
        Outcome.resolved (Response.ok data)) := by
  rw [requestFuel_succ]
  unfold requestBody
  dsimp only
  rw [h200]
  simp

/-- C4: a 401 with a stored token whose access and refresh expiries are both in
the past deletes the stored token, never invokes the refresh collaborator,
notifies exactly once with the fixed message unless silentError, and throws the
constructed refresh-token-expired error when throwErr is set, otherwise
resolves with the failure envelope carrying errorCode 401 and the fixed
message. -/
theorem c4_refresh_token_expired {α : Type} (env : Env α) (args : Args) (st : St) (fuel : Nat)
    (e : JsError) (t : Token)
    (htr : env.transport (dispatchConfig args st) = AxiosResult.rejected e)
    (h401 : e.responseStatus = some 401)
    (hia : args.ignoreAuth = false)
    (hst : getToken st = some t)
    (hacc : env.now > t.accessExpiredAt)
    (href : env.now > t.refreshExpiredAt) :
    requestFuel env (fuel + 1) args st =
      some (⟨none,
        st.notices ++ (if args.silentError then [] else ["刷新令牌已过期，请重新登录"]),
        st.dispatches ++ [dispatchConfig args st],
        st.refreshCalls⟩,
        if args.throwErr then Outcome.thrown (Thrown.newError "刷新令牌已过期")
        else Outcome.resolved (Response.fail (some 401) (some "刷新令牌已过期"))) := by
  simp only [getToken] at hst
  have hexp : isTokenExpired env.now t = true := by
    simp [isTokenExpired, hacc, href]
  have hrexp : isRefreshTokenExpired env.now t = true := by
    simp [isRefreshTokenExpired, href]
  rw [requestFuel_succ]
  unfold requestBody
  dsimp only
  rw [htr]
  dsimp only
  unfold handleError
  simp only [getToken, hst, h401, hia, hexp, hrexp, deleteToken, notify, and_self,
    if_true, if_pos, ite_true]
  cases hsil : args.silentError <;> cases hth : args.throwErr <;> simp

/-- C7: a 401 while the stored token is expired by neither predicate falls
through to the generic failure reporting of the original error, without
invoking the refresh collaborator and without modifying the token store. -/
theorem c7_valid_token_passthrough {α : Type} (env : Env α) (args : Args) (st : St) (fuel : Nat)
    (e : JsError) (t : Token)
    (htr : env.transport (dispatchConfig args st) = AxiosResult.rejected e)
    (_h401 : e.responseStatus = some 401)
    (_hia : args.ignoreAuth = false)
    (hst : getToken st = some t)
    (hacc : ¬ env.now > t.accessExpiredAt)
    (href : ¬ env.now > t.refreshExpiredAt) :
    requestFuel env (fuel + 1) args st =
      genericReport args e { st with dispatches := st.dispatches ++ [dispatchConfig args st] } ∧
    ∃ stF out, requestFuel env (fuel + 1) args st = some (stF, out) ∧
      stF.store = st.store ∧ stF.refreshCalls = st.refreshCalls := by
  simp only [getToken] at hst
  have hfresh : isTokenExpired env.now t = false := by
    simp [isTokenExpired, hacc, href]
  have hmain : requestFuel env (fuel + 1) args st =
      genericReport args e { st with dispatches := st.dispatches ++ [dispatchConfig args st] } := by
    rw [requestFuel_succ]
    unfold requestBody
    dsimp only
    rw [htr]
    dsimp only
    exact handleError_fresh env _ args e _ t (by simpa [getToken] using hst) hfresh
  refine ⟨hmain, ?_⟩
  obtain ⟨⟨stF, out⟩, hsome⟩ := Option.isSome_iff_exists.mp
    (genericReport_isSome (α := α) args e { st with dispatches := st.dispatches ++ [dispatchConfig args st] })
  obtain ⟨hstore, hdisp, hrc⟩ := genericReport_store args e _ stF out hsome
  exact ⟨stF, out, by rw [hmain, hsome], by simpa using hstore, by simpa using hrc⟩


theorem genericReport_exists {α : Type} (args : Args) (e : JsError) (st : St) :
    ∃ stF out, genericReport (α := α) args e st = some (stF, out) ∧
      stF.store = st.store ∧ stF.dispatches = st.dispatches ∧ stF.refreshCalls = st.refreshCalls := by
  obtain ⟨⟨stF, out⟩, h⟩ := Option.isSome_iff_exists.mp (genericReport_isSome (α := α) args e st)
  obtain ⟨h1, h2, h3⟩ := genericReport_store args e st stF out h
  exact ⟨stF, out, h, h1, h2, h3⟩

theorem requestBody_fresh_frame {α : Type} (env : Env α)
    (retry : Args → St → Option (St × Outcome α)) (args : Args) (st : St)
    (t : Token) (hst : getToken st = some t) (hfresh : isTokenExpired env.now t = false) :
    ∃ stF out, requestBody env retry args st = some (stF, out) ∧
      stF.store = st.store ∧
      stF.dispatches = st.dispatches ++ [dispatchConfig args st] ∧
      stF.refreshCalls = st.refreshCalls := by
  simp only [getToken] at hst
  unfold requestBody
  dsimp only
  cases env.transport (dispatchConfig args st) <;> dsimp only
  case resolved status data em =>
    by_cases h200 : status = 200
    · exact ⟨{ st with dispatches := st.dispatches ++ [dispatchConfig args st] },
        Outcome.resolved (Response.ok data), by rw [if_pos h200], rfl, rfl, rfl⟩
    · rw [if_neg h200,
        handleError_fresh env retry args _ _ t (by simpa [getToken] using hst) hfresh]
      obtain ⟨stF, out, h, h1, h2, h3⟩ := genericReport_exists (α := α) args _
        { st with dispatches := st.dispatches ++ [dispatchConfig args st] }
      exact ⟨stF, out, h, by simpa using h1, by simpa using h2, by simpa using h3⟩
  case rejected e =>
    rw [handleError_fresh env retry args _ _ t (by simpa [getToken] using hst) hfresh]
    obtain ⟨stF, out, h, h1, h2, h3⟩ := genericReport_exists (α := α) args e
      { st with dispatches := st.dispatches ++ [dispatchConfig args st] }
    exact ⟨stF, out, h, by simpa using h1, by simpa using h2, by simpa using h3⟩

/-- C6: with ignoreAuth set, no Authorization header is attached to the
dispatched call, the whole call never recurses (its result is fuel
independent), it terminates with the store and the refresh-call log unchanged,
and a transport rejection goes straight to the generic failure reporting. -/
theorem c6_ignoreAuth_no_credential_no_refresh {α : Type} (env : Env α) (args : Args)
    (st : St) (fuel : Nat) (hia : args.ignoreAuth = true) :
    dispatchConfig args st = ⟨resolveUrl args, none⟩ ∧
    requestFuel env (fuel + 1) args st = requestFuel env 1 args st ∧
    (∃ stF out, requestFuel env (fuel + 1) args st = some (stF, out) ∧
      stF.store = st.store ∧ stF.refreshCalls = st.refreshCalls) ∧
    (∀ e, env.transport (dispatchConfig args st) = AxiosResult.rejected e →
      requestFuel env (fuel + 1) args st =
        genericReport args e { st with dispatches := st.dispatches ++ [dispatchConfig args st] }) := by
  have hauth : dispatchConfig args st = ⟨resolveUrl args, none⟩ := by
    unfold dispatchConfig authHeader
    rw [hia]
    simp
  have hbody : ∀ r₁ r₂ : Args → St → Option (St × Outcome α),
      requestBody env r₁ args st = requestBody env r₂ args st := by
    intro r₁ r₂
    unfold requestBody
    dsimp only
    cases env.transport (dispatchConfig args st) <;> dsimp only
    · split
      · rfl
      · rw [handleError_ignoreAuth env r₁ args _ _ hia, handleError_ignoreAuth env r₂ args _ _ hia]
    · rw [handleError_ignoreAuth env r₁ args _ _ hia, handleError_ignoreAuth env r₂ args _ _ hia]
  refine ⟨hauth, hbody _ _, ?_, ?_⟩
  · rw [requestFuel_succ]
    unfold requestBody
    dsimp only
    cases env.transport (dispatchConfig args st) <;> dsimp only
    case resolved status data em =>
      by_cases h200 : status = 200
      · exact ⟨{ st with dispatches := st.dispatches ++ [dispatchConfig args st] },
          Outcome.resolved (Response.ok data), by rw [if_pos h200], rfl, rfl⟩
      · rw [if_neg h200, handleError_ignoreAuth env _ args _ _ hia]
        obtain ⟨stF, out, h, h1, _h2, h3⟩ := genericReport_exists (α := α) args _
          { st with dispatches := st.dispatches ++ [dispatchConfig args st] }
        exact ⟨stF, out, h, by simpa using h1, by simpa using h3⟩
    case rejected e =>
      rw [handleError_ignoreAuth env _ args _ _ hia]
      obtain ⟨stF, out, h, h1, _h2, h3⟩ := genericReport_exists (α := α) args e
        { st with dispatches := st.dispatches ++ [dispatchConfig args st] }
      exact ⟨stF, out, h, by simpa using h1, by simpa using h3⟩
  · intro e htr
    rw [requestFuel_succ]
    unfold requestBody
    dsimp only
    rw [htr]
    dsimp only
    exact handleError_ignoreAuth env _ args _ _ hia


/-- C2 (amended): on a 401 with an expired access token and a live refresh
token, a refresh collaborator REJECTION deletes the stored token, notifies the
fixed message unless silentError, and throws the rejection value when throwErr
is set, otherwise resolves with the fixed errorCode-401 refresh-failed
envelope; a refresh collaborator resolving with success set to false instead
leaves the token store untouched and falls through to the generic failure
reporting of the original transport error. -/
theorem c2_refresh_failure_paths {α : Type} (env : Env α) (args : Args) (st : St) (fuel : Nat)
    (e : JsError) (t : Token)
    (htr : env.transport (dispatchConfig args st) = AxiosResult.rejected e)
    (h401 : e.responseStatus = some 401)
    (hia : args.ignoreAuth = false)
    (hst : getToken st = some t)
    (hexp : isTokenExpired env.now t = true)
    (hnrexp : isRefreshTokenExpired env.now t = false) :
    (∀ re, env.refresh t.refresh = RefreshResult.rejected re →
      requestFuel env (fuel + 1) args st =
        some (⟨none,
          st.notices ++ (if args.silentError then [] else ["刷新令牌失败，请重新登录"]),
          st.dispatches ++ [dispatchConfig args st],
          st.refreshCalls ++ [t.refresh]⟩,
          if args.throwErr then Outcome.thrown (Thrown.refreshErr re)
          else Outcome.resolved (Response.fail (some 401) (some "刷新令牌失败")))) ∧
    (∀ dta, env.refresh t.refresh = RefreshResult.resolved false dta →
      requestFuel env (fuel + 1) args st =
        genericReport args e ⟨st.store, st.notices,
          st.dispatches ++ [dispatchConfig args st],
          st.refreshCalls ++ [t.refresh]⟩) := by
  simp only [getToken] at hst
  constructor
  · intro re hre
    rw [requestFuel_succ]
    unfold requestBody
    dsimp only
    rw [htr]
    dsimp only
    unfold handleError
    simp only [getToken, hst, h401, hia, hexp, hnrexp, deleteToken, notify, and_self,
      Bool.false_eq_true, if_false, if_true]
    rw [hre]
    cases hsil : args.silentError <;> cases hth : args.throwErr <;> simp
  · intro dta hdta
    rw [requestFuel_succ]
    unfold requestBody
    dsimp only
    rw [htr]
    dsimp only
    unfold handleError
    simp only [getToken, hst, h401, hia, hexp, hnrexp, and_self, if_true]
    rw [hdta]
    simp [hst]

/-- C2 (counterexample): with a 401, an expired access token, a live refresh
token, and a refresh collaborator resolving with success set to false, the
stored token is NOT deleted and the result is the generic failure envelope of
the original error, not the fixed refresh-failed failure — contradicting the
claim for the resolved-unsuccessfully case. -/
theorem c2_success_false_not_refresh_failed :
    requestFuel
      (⟨100, fun _ => AxiosResult.rejected ⟨some 401, none, some 7, some "orig"⟩,
        fun _ => RefreshResult.resolved false ⟨"n", "n", 0, 0⟩⟩ : Env Int)
      1 ⟨"/p", none, false, false, false⟩ ⟨some ⟨"acc", "ref", 50, 200⟩, [], [], []⟩ =
      some (⟨some ⟨"acc", "ref", 50, 200⟩, ["请求失败"], [⟨"/p", some "Bearer acc"⟩], ["ref"]⟩,
        Outcome.resolved (Response.fail (some 7) (some "orig"))) ∧
    (some (Token.mk "acc" "ref" 50 200) ≠ (none : Option Token)) ∧
    (Response.fail (α := Int) (some 7) (some "orig") ≠
      Response.fail (some 401) (some "刷新令牌失败")) := by
  exact ⟨by decide, by decide, by decide⟩


/-- C3: on a 401 with an expired access token, a live refresh token, and a
refresh collaborator resolving successfully with a new (non-expired) record,
the new record is persisted and the whole request is re-invoked once from the
post-refresh state: the call (with any fuel) equals the single retried round,
the retried dispatch carries the new access value as bearer credential, and
exactly one retried dispatch occurs — the final dispatch log holds precisely
the original dispatch followed by the retried one, with the new record still
stored. -/
theorem c3_refresh_success_single_retry {α : Type} (env : Env α) (args : Args) (st : St)
    (fuel : Nat) (e : JsError) (t newTok : Token)
    (htr : env.transport (dispatchConfig args st) = AxiosResult.rejected e)
    (h401 : e.responseStatus = some 401)
    (hia : args.ignoreAuth = false)
    (hst : getToken st = some t)
    (hexp : isTokenExpired env.now t = true)
    (hnrexp : isRefreshTokenExpired env.now t = false)
    (hrefresh : env.refresh t.refresh = RefreshResult.resolved true newTok)
    (hfreshNew : isTokenExpired env.now newTok = false) :
    (∀ f₂, requestFuel env (fuel + 2) args st =
      requestFuel env (f₂ + 1) args
        ⟨some newTok, st.notices, st.dispatches ++ [dispatchConfig args st],
          st.refreshCalls ++ [t.refresh]⟩) ∧
    dispatchConfig args
        ⟨some newTok, st.notices, st.dispatches ++ [dispatchConfig args st],
          st.refreshCalls ++ [t.refresh]⟩ =
      ⟨resolveUrl args, some ("Bearer " ++ newTok.access)⟩ ∧
    (∃ stF out, requestFuel env (fuel + 2) args st = some (stF, out) ∧
      stF.store = some newTok ∧
      stF.dispatches = st.dispatches ++ [dispatchConfig args st,
        ⟨resolveUrl args, some ("Bearer " ++ newTok.access)⟩] ∧
      stF.refreshCalls = st.refreshCalls ++ [t.refresh]) := by
  simp only [getToken] at hst
  set stR : St := ⟨some newTok, st.notices, st.dispatches ++ [dispatchConfig args st],
    st.refreshCalls ++ [t.refresh]⟩ with hstR
  have hgetR : getToken stR = some newTok := rfl
  have hkey : requestFuel env (fuel + 2) args st = requestFuel env (fuel + 1) args stR := by
    have : requestFuel env (fuel + 2) args st =
        requestBody env (requestFuel env (fuel + 1)) args st := rfl
    rw [this]
    unfold requestBody
    dsimp only
    rw [htr]
    dsimp only
    unfold handleError
    simp only [getToken, hst, h401, hia, hexp, hnrexp, and_self, if_true]
    rw [hrefresh]
    dsimp only [setToken]
    simp
  have hdispR : dispatchConfig args stR =
      ⟨resolveUrl args, some ("Bearer " ++ newTok.access)⟩ := by
    unfold dispatchConfig authHeader accessField getToken
    rw [hia]
    simp [hstR]
  refine ⟨?_, hdispR, ?_⟩
  · intro f₂
    rw [hkey]
    exact requestFuel_fresh env fuel f₂ args stR newTok hgetR hfreshNew
  · obtain ⟨stF, out, hb, h1, h2, h3⟩ :=
      requestBody_fresh_frame env (requestFuel env fuel) args stR newTok hgetR hfreshNew
    refine ⟨stF, out, ?_, ?_, ?_, ?_⟩
    · rw [hkey, requestFuel_succ]
      exact hb
    · rw [h1]
    · rw [h2, hdispR, hstR]
      simp
    · rw [h3]

/-- C8: if every successful refresh yields a record that is not expired at the
time of the retried call, then the request terminates within one
refresh-triggered retry: fuel two already suffices (the result is Some, one
terminal outcome) and adding any further fuel does not change the result. -/
theorem c8_one_retry_suffices {α : Type} (env : Env α)
    (H : ∀ r b d, env.refresh r = RefreshResult.resolved b d → b = true →
      isTokenExpired env.now d = false)
    (fuel : Nat) (args : Args) (st : St) :
    requestFuel env (fuel + 2) args st = requestFuel env 2 args st ∧
      (requestFuel env 2 args st).isSome := by
  constructor
  · have h1 : requestFuel env (fuel + 2) args st =
        requestBody env (requestFuel env (fuel + 1)) args st := rfl
    have h2 : requestFuel env 2 args st =
        requestBody env (requestFuel env 1) args st := rfl
    rw [h1, h2]
    apply requestBody_congr
    intro s d hs hex
    obtain ⟨r, hr⟩ := hex
    have hfresh : isTokenExpired env.now d = false := H r true d hr rfl
    exact requestFuel_fresh env fuel 0 args s d hs hfresh
  · have h2 : requestFuel env 2 args st =
        requestBody env (requestFuel env 1) args st := rfl
    rw [h2]
    apply requestBody_isSome
    intro s d hs hex
    obtain ⟨r, hr⟩ := hex
    have hfresh : isTokenExpired env.now d = false := H r true d hr rfl
    exact requestBody_fresh_isSome env (requestFuel env 0) args s d hs hfresh


theorem handleError_noToken {α : Type} (env : Env α)
    (retry : Args → St → Option (St × Outcome α)) (args : Args) (e : JsError) (st : St)
    (hst : getToken st = none) :
    handleError env retry args e st = genericReport args e st := by
  unfold handleError
  split
  · rw [hst]
  · rfl

/-- C10: the token store is written or deleted only on the refresh protocol
branches of one round of the orchestrator.  In order: a 200 response keeps the
store; a rejection that is not an un-ignored 401 reports generically; a
non-200 resolved status reports generically on a constructed error; a 401 with
an empty store, or with a stored token expired by neither predicate, reports
generically; a 401 with both predicates expired deletes the store without a
refresh call; a refresh rejection deletes the store; a refresh resolving
successfully overwrites the store with the new record and hands off to the
retry; a refresh resolving unsuccessfully keeps the store and reports
generically; and generic reporting never changes the store. -/
theorem c10_store_frame {α : Type} (env : Env α)
    (retry : Args → St → Option (St × Outcome α)) (args : Args) (st : St) :
    (∀ data em, env.transport (dispatchConfig args st) = AxiosResult.resolved 200 data em →
      requestBody env retry args st =
        some ({ st with dispatches := st.dispatches ++ [dispatchConfig args st] },
          Outcome.resolved (Response.ok data))) ∧
    (∀ e, env.transport (dispatchConfig args st) = AxiosResult.rejected e →
      ¬(e.responseStatus = some 401 ∧ args.ignoreAuth = false) →
      requestBody env retry args st =
        genericReport args e { st with dispatches := st.dispatches ++ [dispatchConfig args st] }) ∧
    (∀ status data em, env.transport (dispatchConfig args st) = AxiosResult.resolved status data em →
      status ≠ 200 →
      requestBody env retry args st =
        genericReport args ⟨none, none, none, some (jsOr em "请求失败")⟩
          { st with dispatches := st.dispatches ++ [dispatchConfig args st] }) ∧
    (∀ e, env.transport (dispatchConfig args st) = AxiosResult.rejected e →
      st.store = none →
      requestBody env retry args st =
        genericReport args e { st with dispatches := st.dispatches ++ [dispatchConfig args st] }) ∧
    (∀ e t, env.transport (dispatchConfig args st) = AxiosResult.rejected e →
      st.store = some t → isTokenExpired env.now t = false →
      requestBody env retry args st =
        genericReport args e { st with dispatches := st.dispatches ++ [dispatchConfig args st] }) ∧
    (∀ e t, env.transport (dispatchConfig args st) = AxiosResult.rejected e →
      e.responseStatus = some 401 → args.ignoreAuth = false →
      st.store = some t → isTokenExpired env.now t = true →
      isRefreshTokenExpired env.now t = true →
      ∃ stF out, requestBody env retry args st = some (stF, out) ∧
        stF.store = none ∧ stF.refreshCalls = st.refreshCalls) ∧
    (∀ e t re, env.transport (dispatchConfig args st) = AxiosResult.rejected e →
      e.responseStatus = some 401 → args.ignoreAuth = false →
      st.store = some t → isTokenExpired env.now t = true →
      isRefreshTokenExpired env.now t = false →
      env.refresh t.refresh = RefreshResult.rejected re →
      ∃ stF out, requestBody env retry args st = some (stF, out) ∧ stF.store = none) ∧
    (∀ e t dta, env.transport (dispatchConfig args st) = AxiosResult.rejected e →
      e.responseStatus = some 401 → args.ignoreAuth = false →
      st.store = some t → isTokenExpired env.now t = true →
      isRefreshTokenExpired env.now t = false →
      env.refresh t.refresh = RefreshResult.resolved true dta →
      requestBody env retry args st =
        retry args ⟨some dta, st.notices, st.dispatches ++ [dispatchConfig args st],
          st.refreshCalls ++ [t.refresh]⟩) ∧
    (∀ e t dta, env.transport (dispatchConfig args st) = AxiosResult.rejected e →
      e.responseStatus = some 401 → args.ignoreAuth = false →
      st.store = some t → isTokenExpired env.now t = true →
      isRefreshTokenExpired env.now t = false →
      env.refresh t.refresh = RefreshResult.resolved false dta →
      requestBody env retry args st =
        genericReport args e ⟨st.store, st.notices,
          st.dispatches ++ [dispatchConfig args st], st.refreshCalls ++ [t.refresh]⟩) ∧
    (∀ e s stF out, genericReport (α := α) args e s = some (stF, out) → stF.store = s.store) := by
  refine ⟨?_, ?_, ?_, ?_, ?_, ?_, ?_, ?_, ?_, ?_⟩
  · intro data em h200
    unfold requestBody
    dsimp only
    rw [h200]
    simp
  · intro e htr hn401
    unfold requestBody
    dsimp only
    rw [htr]
    dsimp only
    unfold handleError
    rw [if_neg hn401]
  · intro status data em htr hstatus
    unfold requestBody
    dsimp only
    rw [htr]
    dsimp only
    rw [if_neg hstatus]
    unfold handleError
    rw [if_neg (by simp)]
  · intro e htr hnone
    unfold requestBody
    dsimp only
    rw [htr]
    dsimp only
    exact handleError_noToken env retry args e _ (by simpa [getToken] using hnone)
  · intro e t htr hsome hfresh
    unfold requestBody
    dsimp only
    rw [htr]
    dsimp only
    exact handleError_fresh env retry args e _ t (by simpa [getToken] using hsome) hfresh
  · intro e t htr h401 hia hsome hexp hrexp
    unfold requestBody
    dsimp only
    rw [htr]
    dsimp only
    unfold handleError
    simp only [getToken, hsome, h401, hia, hexp, hrexp, and_self, if_true, deleteToken, notify]
    cases hsil : args.silentError <;> cases hth : args.throwErr <;>
      exact ⟨_, _, rfl, rfl, rfl⟩
  · intro e t re htr h401 hia hsome hexp hnrexp hre
    unfold requestBody
    dsimp only
    rw [htr]
    dsimp only
    unfold handleError
    simp only [getToken, hsome, h401, hia, hexp, hnrexp, and_self, if_true,
      Bool.false_eq_true, if_false, deleteToken, notify]
    rw [hre]
    cases hsil : args.silentError <;> cases hth : args.throwErr <;>
      exact ⟨_, _, rfl, rfl⟩
  · intro e t dta htr h401 hia hsome hexp hnrexp hre
    unfold requestBody
    dsimp only
    rw [htr]
    dsimp only
    unfold handleError
    simp only [getToken, hsome, h401, hia, hexp, hnrexp, and_self, if_true,
      Bool.false_eq_true, if_false]
    rw [hre]
    dsimp only [setToken]
    simp
  · intro e t dta htr h401 hia hsome hexp hnrexp hre
    unfold requestBody
    dsimp only
    rw [htr]
    dsimp only
    unfold handleError
    simp only [getToken, hsome, h401, hia, hexp, hnrexp, and_self, if_true,
      Bool.false_eq_true, if_false]
    rw [hre]
    simp [hsome]
  · intro e s stF out h
    exact (genericReport_store args e s stF out h).1


/-- C1 (code evaluated at the failing input): the substitution loop rewrites
the ORIGINAL url with the last map entry's value on every iteration, so the
template with two distinct placeholders yields the last value in both
positions instead of each placeholder's own value, and an unmapped
placeholder is rewritten rather than left literal; only the
no-placeholder case returns the template unchanged. -/
theorem c1_substitution_uses_last_value :
    replacePathVariables "/api/:id/:name" [("id", "1"), ("name", "2")] = "/api/2/2" ∧
    replacePathVariables "/api/:id/:name" [("id", "1"), ("name", "2")] ≠ "/api/1/2" ∧
    replacePathVariables "/api/:id/:other" [("id", "1")] = "/api/1/1" ∧
    replacePathVariables "/api/plain" [("id", "1")] = "/api/plain" := by
  exact ⟨by decide, by decide, by decide, by decide⟩

/-- C5 (code evaluated at the failing input): with an empty token store and
ignoreAuth unset, getToken() returns the truthy empty object, so the guard
attaches the header anyway and the dispatched call carries
Authorization "Bearer undefined" instead of no Authorization header. -/
theorem c5_empty_store_bearer_undefined :
    dispatchConfig ⟨"/ping", none, false, false, false⟩ ⟨none, [], [], []⟩ =
      ⟨"/ping", some "Bearer undefined"⟩ ∧
    requestFuel
      (⟨0, fun _ => AxiosResult.resolved 200 (some (5 : Int)) none,
        fun _ => RefreshResult.rejected ⟨none, none, none, none⟩⟩ : Env Int)
      1 ⟨"/ping", none, false, false, false⟩ ⟨none, [], [], []⟩ =
      some (⟨none, [], [⟨"/ping", some "Bearer undefined"⟩], []⟩,
        Outcome.resolved (Response.ok (some 5))) := by
  exact ⟨by decide, by decide⟩

/-- C5 companion fact: when a record is stored, the attached credential is the
bearer form of its access value — the header claims only fail for the empty
store. -/
theorem c5_present_token_bearer_access (args : Args) (st : St) (t : Token)
    (hia : args.ignoreAuth = false) (hst : getToken st = some t) :
    dispatchConfig args st = ⟨resolveUrl args, some ("Bearer " ++ t.access)⟩ := by
  unfold dispatchConfig authHeader accessField
  rw [hia, hst]
  simp


/-! ## Concrete witnesses instantiating the theorems above -/

/-- Witness for c9_status200_success at a concrete environment. -/
theorem c9_status200_success_witness :
    requestFuel (⟨0, fun _ => AxiosResult.resolved 200 (some (3 : Int)) none,
        fun _ => RefreshResult.rejected ⟨none, none, none, none⟩⟩ : Env Int)
      1 ⟨"/a", none, false, false, false⟩ ⟨some ⟨"acc", "ref", 10, 10⟩, [], [], []⟩ =
      some (⟨some ⟨"acc", "ref", 10, 10⟩, [], [⟨"/a", some "Bearer acc"⟩], []⟩,
        Outcome.resolved (Response.ok (some 3))) :=
  c9_status200_success _ _ _ 0 (some 3) none rfl

/-- Witness for c4_refresh_token_expired at a concrete environment. -/
theorem c4_refresh_token_expired_witness :
    requestFuel (⟨100, fun _ => AxiosResult.rejected ⟨some 401, none, none, none⟩,
        fun _ => RefreshResult.rejected ⟨none, none, none, none⟩⟩ : Env Int)
      1 ⟨"/a", none, false, false, false⟩ ⟨some ⟨"acc", "ref", 10, 20⟩, [], [], []⟩ =
      some (⟨none, ["刷新令牌已过期，请重新登录"], [⟨"/a", some "Bearer acc"⟩], []⟩,
        Outcome.resolved (Response.fail (some 401) (some "刷新令牌已过期"))) :=
  c4_refresh_token_expired _ _ _ 0 _ _ rfl rfl rfl rfl (by decide) (by decide)

/-- Witness for c7_valid_token_passthrough at a concrete environment. -/
theorem c7_valid_token_passthrough_witness :
    requestFuel (⟨5, fun _ => AxiosResult.rejected ⟨some 401, none, none, some "m"⟩,
        fun _ => RefreshResult.rejected ⟨none, none, none, none⟩⟩ : Env Int)
      1 ⟨"/a", none, false, false, false⟩ ⟨some ⟨"acc", "ref", 10, 20⟩, [], [], []⟩ =
      genericReport ⟨"/a", none, false, false, false⟩ ⟨some 401, none, none, some "m"⟩
        ⟨some ⟨"acc", "ref", 10, 20⟩, [], [⟨"/a", some "Bearer acc"⟩], []⟩ ∧
    ∃ stF out,
      requestFuel (⟨5, fun _ => AxiosResult.rejected ⟨some 401, none, none, some "m"⟩,
          fun _ => RefreshResult.rejected ⟨none, none, none, none⟩⟩ : Env Int)
        1 ⟨"/a", none, false, false, false⟩ ⟨some ⟨"acc", "ref", 10, 20⟩, [], [], []⟩ =
        some (stF, out) ∧
      stF.store = some ⟨"acc", "ref", 10, 20⟩ ∧ stF.refreshCalls = [] :=
  c7_valid_token_passthrough _ _ _ 0 _ _ rfl rfl rfl rfl (by decide) (by decide)

/-- Witness for c6_ignoreAuth_no_credential_no_refresh at a concrete
environment. -/
theorem c6_ignoreAuth_witness :
    dispatchConfig ⟨"/b", none, true, false, false⟩ ⟨none, [], [], []⟩ = ⟨"/b", none⟩ ∧
    requestFuel (⟨0, fun _ => AxiosResult.rejected ⟨some 500, none, none, none⟩,
        fun _ => RefreshResult.rejected ⟨none, none, none, none⟩⟩ : Env Int)
      3 ⟨"/b", none, true, false, false⟩ ⟨none, [], [], []⟩ =
      requestFuel (⟨0, fun _ => AxiosResult.rejected ⟨some 500, none, none, none⟩,
        fun _ => RefreshResult.rejected ⟨none, none, none, none⟩⟩ : Env Int)
      1 ⟨"/b", none, true, false, false⟩ ⟨none, [], [], []⟩ ∧
    requestFuel (⟨0, fun _ => AxiosResult.rejected ⟨some 500, none, none, none⟩,
        fun _ => RefreshResult.rejected ⟨none, none, none, none⟩⟩ : Env Int)
      3 ⟨"/b", none, true, false, false⟩ ⟨none, [], [], []⟩ =
      genericReport ⟨"/b", none, true, false, false⟩ ⟨some 500, none, none, none⟩
        ⟨none, [], [⟨"/b", none⟩], []⟩ := by
  have h := c6_ignoreAuth_no_credential_no_refresh
    (⟨0, fun _ => AxiosResult.rejected ⟨some 500, none, none, none⟩,
      fun _ => RefreshResult.rejected ⟨none, none, none, none⟩⟩ : Env Int)
    ⟨"/b", none, true, false, false⟩ ⟨none, [], [], []⟩ 2 rfl
  exact ⟨h.1, h.2.1, h.2.2.2 ⟨some 500, none, none, none⟩ rfl⟩

/-- Witness for c2_refresh_failure_paths at a concrete environment (the
rejection branch). -/
theorem c2_refresh_failure_paths_witness :
    requestFuel (⟨100, fun _ => AxiosResult.rejected ⟨some 401, none, some 9, some "orig"⟩,
        fun _ => RefreshResult.rejected ⟨none, none, none, some "rerr"⟩⟩ : Env Int)
      1 ⟨"/c", none, false, false, false⟩ ⟨some ⟨"acc", "ref", 50, 200⟩, [], [], []⟩ =
      some (⟨none, ["刷新令牌失败，请重新登录"], [⟨"/c", some "Bearer acc"⟩], ["ref"]⟩,
        Outcome.resolved (Response.fail (some 401) (some "刷新令牌失败"))) :=
  (c2_refresh_failure_paths
      (⟨100, fun _ => AxiosResult.rejected ⟨some 401, none, some 9, some "orig"⟩,
        fun _ => RefreshResult.rejected ⟨none, none, none, some "rerr"⟩⟩ : Env Int)
      ⟨"/c", none, false, false, false⟩ ⟨some ⟨"acc", "ref", 50, 200⟩, [], [], []⟩ 0
      ⟨some 401, none, some 9, some "orig"⟩ ⟨"acc", "ref", 50, 200⟩
      rfl rfl rfl rfl (by decide) (by decide)).1
    ⟨none, none, none, some "rerr"⟩ rfl

/-- Witness for c3_refresh_success_single_retry at a concrete environment in
which the retried dispatch succeeds. -/
theorem c3_refresh_success_single_retry_witness :
    requestFuel (⟨100,
        fun d => if d.authorization = some "Bearer newacc"
          then AxiosResult.resolved 200 (some (7 : Int)) none
          else AxiosResult.rejected ⟨some 401, none, none, none⟩,
        fun _ => RefreshResult.resolved true ⟨"newacc", "newref", 500, 600⟩⟩ : Env Int)
      2 ⟨"/d", none, false, false, false⟩ ⟨some ⟨"acc", "ref", 50, 200⟩, [], [], []⟩ =
      requestFuel (⟨100,
        fun d => if d.authorization = some "Bearer newacc"
          then AxiosResult.resolved 200 (some (7 : Int)) none
          else AxiosResult.rejected ⟨some 401, none, none, none⟩,
        fun _ => RefreshResult.resolved true ⟨"newacc", "newref", 500, 600⟩⟩ : Env Int)
      1 ⟨"/d", none, false, false, false⟩
      ⟨some ⟨"newacc", "newref", 500, 600⟩, [], [⟨"/d", some "Bearer acc"⟩], ["ref"]⟩ ∧
    ∃ stF out,
      requestFuel (⟨100,
        fun d => if d.authorization = some "Bearer newacc"
          then AxiosResult.resolved 200 (some (7 : Int)) none
          else AxiosResult.rejected ⟨some 401, none, none, none⟩,
        fun _ => RefreshResult.resolved true ⟨"newacc", "newref", 500, 600⟩⟩ : Env Int)
        2 ⟨"/d", none, false, false, false⟩ ⟨some ⟨"acc", "ref", 50, 200⟩, [], [], []⟩ =
        some (stF, out) ∧
      stF.store = some ⟨"newacc", "newref", 500, 600⟩ ∧
      stF.dispatches = [⟨"/d", some "Bearer acc"⟩, ⟨"/d", some "Bearer newacc"⟩] ∧
      stF.refreshCalls = ["ref"] := by
  have h := c3_refresh_success_single_retry
    (⟨100,
      fun d => if d.authorization = some "Bearer newacc"
        then AxiosResult.resolved 200 (some (7 : Int)) none
        else AxiosResult.rejected ⟨some 401, none, none, none⟩,
      fun _ => RefreshResult.resolved true ⟨"newacc", "newref", 500, 600⟩⟩ : Env Int)
    ⟨"/d", none, false, false, false⟩ ⟨some ⟨"acc", "ref", 50, 200⟩, [], [], []⟩ 0
    ⟨some 401, none, none, none⟩ ⟨"acc", "ref", 50, 200⟩ ⟨"newacc", "newref", 500, 600⟩
    (by decide) rfl rfl rfl (by decide) (by decide) (by decide) (by decide)
  exact ⟨h.1 0, h.2.2⟩

/-- Witness for c8_one_retry_suffices at a concrete environment whose refresh
collaborator always returns a non-expired record. -/
theorem c8_one_retry_suffices_witness :
    requestFuel (⟨100, fun _ => AxiosResult.rejected ⟨some 401, none, none, none⟩,
        fun _ => RefreshResult.resolved true ⟨"na", "nr", 500, 600⟩⟩ : Env Int)
      7 ⟨"/e", none, false, false, false⟩ ⟨some ⟨"a", "r", 0, 200⟩, [], [], []⟩ =
      requestFuel (⟨100, fun _ => AxiosResult.rejected ⟨some 401, none, none, none⟩,
        fun _ => RefreshResult.resolved true ⟨"na", "nr", 500, 600⟩⟩ : Env Int)
      2 ⟨"/e", none, false, false, false⟩ ⟨some ⟨"a", "r", 0, 200⟩, [], [], []⟩ ∧
    (requestFuel (⟨100, fun _ => AxiosResult.rejected ⟨some 401, none, none, none⟩,
        fun _ => RefreshResult.resolved true ⟨"na", "nr", 500, 600⟩⟩ : Env Int)
      2 ⟨"/e", none, false, false, false⟩ ⟨some ⟨"a", "r", 0, 200⟩, [], [], []⟩).isSome :=
  c8_one_retry_suffices _
    (by
      intro r b d h hb
      rw [hb] at h
      simp only [RefreshResult.resolved.injEq] at h
      rw [← h.2]
      decide)
    5 _ _

/-- Witness for c10_store_frame: the 200 path keeps the store and the
both-expired 401 path deletes it, at concrete environments. -/
theorem c10_store_frame_witness :
    requestBody (⟨0, fun _ => AxiosResult.resolved 200 (some (1 : Int)) none,
        fun _ => RefreshResult.rejected ⟨none, none, none, none⟩⟩ : Env Int)
      (fun _ _ => none) ⟨"/f", none, false, false, false⟩ ⟨some ⟨"a", "r", 5, 5⟩, [], [], []⟩ =
      some (⟨some ⟨"a", "r", 5, 5⟩, [], [⟨"/f", some "Bearer a"⟩], []⟩,
        Outcome.resolved (Response.ok (some 1))) ∧
    ∃ stF out,
      requestBody (⟨100, fun _ => AxiosResult.rejected ⟨some 401, none, none, none⟩,
          fun _ => RefreshResult.rejected ⟨none, none, none, none⟩⟩ : Env Int)
        (fun _ _ => none) ⟨"/f", none, false, false, false⟩
        ⟨some ⟨"a", "r", 0, 0⟩, [], [], []⟩ = some (stF, out) ∧
      stF.store = none ∧ stF.refreshCalls = [] := by
  constructor
  · exact (c10_store_frame (⟨0, fun _ => AxiosResult.resolved 200 (some (1 : Int)) none,
        fun _ => RefreshResult.rejected ⟨none, none, none, none⟩⟩ : Env Int)
      (fun _ _ => none) ⟨"/f", none, false, false, false⟩
      ⟨some ⟨"a", "r", 5, 5⟩, [], [], []⟩).1 (some 1) none rfl
  · exact (c10_store_frame (⟨100, fun _ => AxiosResult.rejected ⟨some 401, none, none, none⟩,
        fun _ => RefreshResult.rejected ⟨none, none, none, none⟩⟩ : Env Int)
      (fun _ _ => none) ⟨"/f", none, false, false, false⟩
      ⟨some ⟨"a", "r", 0, 0⟩, [], [], []⟩).2.2.2.2.2.1 ⟨some 401, none, none, none⟩
      ⟨"a", "r", 0, 0⟩ rfl rfl rfl rfl (by decide) (by decide)


/-- C3 (counterexample to the unconditional claim): when the refresh
collaborator resolves successfully but returns a record that is itself already
expired, the retried call refreshes and dispatches again — here the transport
log holds three dispatches (the original and TWO retried ones), not the two
that "exactly one retried dispatch" predicts, even though every refresh
resolved with success. -/
theorem c3_expired_refresh_record_two_retries :
    requestFuel (⟨100,
        fun d => if d.authorization = some "Bearer accC"
          then AxiosResult.resolved 200 (some (7 : Int)) none
          else AxiosResult.rejected ⟨some 401, none, none, none⟩,
        fun r => if r = "ref" then RefreshResult.resolved true ⟨"accB", "ref2", 0, 1000⟩
          else if r = "ref2" then RefreshResult.resolved true ⟨"accC", "ref3", 500, 600⟩
          else RefreshResult.rejected ⟨none, none, none, none⟩⟩ : Env Int)
      3 ⟨"/x", none, false, false, false⟩ ⟨some ⟨"acc", "ref", 50, 200⟩, [], [], []⟩ =
      some (⟨some ⟨"accC", "ref3", 500, 600⟩, [],
        [⟨"/x", some "Bearer acc"⟩, ⟨"/x", some "Bearer accB"⟩, ⟨"/x", some "Bearer accC"⟩],
        ["ref", "ref2"]⟩,
        Outcome.resolved (Response.ok (some 7))) ∧
    ([(⟨"/x", some "Bearer acc"⟩ : Dispatched), ⟨"/x", some "Bearer accB"⟩,
      ⟨"/x", some "Bearer accC"⟩] : List Dispatched).length ≠ 2 := by
  exact ⟨by decide, by decide⟩

end ReactRequest
